import Mathlib

/-!
Verification of the metadata-extraction + incremental-cache pipeline of
`scripts/generate_map.py` (repository K03-02/photomap).

Shallow embedding conventions:
* Python floats are modelled as exact rationals (`ℚ`); every numeric fact
  checked below is exactly representable, so no rounding is involved.
* A Python expression that may raise is modelled as `Except Unit _`; a
  `try/except` block is modelled by pattern-matching on that result.
* The external collaborators (Google Drive download, pyheif decode, PIL
  decode, exifread tag parsing) are parameters of the model (`Env`), since
  the script only observes their success/failure and returned data.
* The EXIF tag dictionary returned by `exifread.process_file` is projected
  to the five tags the script reads (`TagSet`); structural failures of the
  reader itself are the `.error` case of the parse result.
* The derived images are modelled by their pixel dimensions, which is the
  only aspect of their content the specification's claims mention; the
  PNG/base64 encoding applied afterwards is outside the model.
-/

set_option autoImplicit false

namespace Photomap

/-- An EXIF rational value: a numerator/denominator pair, as exposed by
`exifread` (`.num` / `.den`). -/
structure ExifRat where
  num : Int
  den : Int
deriving Repr, DecidableEq

/-- A GPS DMS triple as stored in `GPS GPSLatitude` / `GPS GPSLongitude`:
three rationals (degrees, minutes, seconds), the `values` list of the tag. -/
structure Dms where
  deg : ExifRat
  minute : ExifRat
  sec : ExifRat
deriving Repr, DecidableEq

/-- Projection of the `exifread` tag dictionary to the tags
`extract_exif` reads.  `none` models the key being absent from the dict. -/
structure TagSet where
  gpsLatitude : Option Dms
  gpsLatitudeRef : Option String
  gpsLongitude : Option Dms
  gpsLongitudeRef : Option String
  dateTimeOriginal : Option String
deriving Repr, DecidableEq

/-- `float(r.num)/r.den`: raises `ZeroDivisionError` when the denominator
is zero, otherwise the exact quotient. -/
def ratVal (r : ExifRat) : Except Unit ℚ :=
  if r.den = 0 then .error () else .ok ((r.num : ℚ) / (r.den : ℚ))

/-- `dms_to_dd` (generate_map.py lines 79–86): converts a DMS triple and a
reference-tag string to decimal degrees.  `dd = deg + minute/60 + sec/3600`,
negated when `ref.values not in ['N', 'E']`.  The same function is used for
latitude and longitude; a division by zero propagates as an exception. -/
def dms_to_dd (dms : Dms) (refStr : String) : Except Unit ℚ := do
  let deg ← ratVal dms.deg
  let minute ← ratVal dms.minute
  let sec ← ratVal dms.sec
  let dd := deg + minute / 60 + sec / 3600
  if refStr ∈ (["N", "E"] : List String) then return dd else return -dd

/-- The triple returned by `extract_exif`.  In Python these start as the
empty string `''` and are overwritten on success: a numeric latitude or
longitude is `some q`, the empty string stays `none`; the datetime is a
string, `""` when never assigned. -/
structure GeoTag where
  latitude : Option ℚ
  longitude : Option ℚ
  datetime : String
deriving Repr, DecidableEq

/-- `extract_exif` (generate_map.py lines 65–93), parameterised by the
outcome of the byte-level front end (HEIC re-encode + `exifread.process_file`),
which may itself raise (`.error`).  The whole body is inside a single
`try/except`, so any exception yields the variables' values at that point:
* parse failure: `('', '', '')`;
* `tags['GPS GPSLatitudeRef']` missing (KeyError) or latitude conversion
  raising: `('', '', '')` — nothing assigned yet;
* `tags['GPS GPSLongitudeRef']` missing or longitude conversion raising:
  `(lat, '', '')` — `lat` was already assigned, `dt` not yet read;
* GPS block skipped (one of the two DMS tags absent) or completed: `dt`
  is read from `EXIF DateTimeOriginal` when present. -/
def extract_exif (parsed : Except Unit TagSet) : GeoTag :=
  match parsed with
  | .error _ => ⟨none, none, ""⟩
  | .ok tags =>
    match tags.gpsLatitude, tags.gpsLongitude with
    | some latDms, some lonDms =>
      match tags.gpsLatitudeRef with
      | none => ⟨none, none, ""⟩
      | some latRef =>
        match dms_to_dd latDms latRef with
        | .error _ => ⟨none, none, ""⟩
        | .ok latV =>
          match tags.gpsLongitudeRef with
          | none => ⟨some latV, none, ""⟩
          | some lonRef =>
            match dms_to_dd lonDms lonRef with
            | .error _ => ⟨some latV, none, ""⟩
            | .ok lonV => ⟨some latV, some lonV, tags.dateTimeOriginal.getD ""⟩
    | _, _ => ⟨none, none, tags.dateTimeOriginal.getD ""⟩

/-! ### Images and the HEIC decode path -/

/-- A decoded PIL image, modelled by its pixel dimensions (`img.size`). -/
structure Img where
  width : Nat
  height : Nat
deriving Repr, DecidableEq

/-- One entry of the Drive listing returned by `list_image_files`:
`files(id, name, mimeType)`. -/
structure DriveFile where
  id : String
  name : String
  mimeType : String
deriving Repr, DecidableEq

/-- One row of the pipeline's record list / cache (the dict built at
lines 146–153).  `latitude`/`longitude` are `''` (`none`) or a float. -/
structure Row where
  filename : String
  latitude : Option ℚ
  longitude : Option ℚ
  datetime : String
  file_id : String
  mime_type : String
deriving Repr, DecidableEq

/-- The external collaborators the script calls, over an abstract type `β`
of byte buffers:
* `download` — `get_file_bytes` (Drive media download; may raise);
* `parseTags` — the front end of `extract_exif`: HEIC decode + JPEG
  re-encode (for HEIC mimes) followed by `exifread.process_file`, taking
  the bytes and the declared mime type (may raise);
* `heifDecode` — `pyheif.read_heif` + `Image.frombytes` (may raise);
* `pilDecode` — `Image.open` on a bytes buffer (may raise). -/
structure Env (β : Type) where
  download : String → Except Unit β
  parseTags : β → String → Except Unit TagSet
  heifDecode : β → Except Unit Img
  pilDecode : β → Except Unit Img

/-- `pat` is a prefix of `l` (as char lists). -/
def charsPre (pat l : List Char) : Bool :=
  match pat, l with
  | [], _ => true
  | _ :: _, [] => false
  | a :: as, b :: bs => a == b && charsPre as bs

/-- `pat` occurs contiguously inside `l`. -/
def charsInf (pat l : List Char) : Bool :=
  match l with
  | [] => charsPre pat []
  | _ :: bs => charsPre pat l || charsInf pat bs

/-- Python's `pat in s` on strings: substring test. -/
def strContainsSub (s pat : String) : Bool :=
  charsInf pat.data s.data

/-- `pil_open_safe` (lines 50–62): dispatches on `'heic' in mime_type.lower()`
to the pyheif path or `Image.open`, catching every exception and returning
`None` on failure. -/
def pil_open_safe {β : Type} (env : Env β) (fileBytes : β) (mimeType : String) :
    Option Img :=
  match (if strContainsSub mimeType.toLower "heic" then env.heifDecode fileBytes
         else env.pilDecode fileBytes) with
  | .ok img => some img
  | .error _ => none

/-- `heic_to_base64_circle` (lines 96–108), modelled down to the dimensions
of the produced icon: the source is opened with the mime type hardcoded to
`'image/heic'`, then resized to `(size, size)`; the circular alpha mask and
PNG/base64 encoding do not change the dimensions.  `none` when
`pil_open_safe` fails. -/
def heic_to_base64_circle {β : Type} (env : Env β) (fileBytes : β) (size : Nat) :
    Option (Nat × Nat) :=
  (pil_open_safe env fileBytes "image/heic").map fun _ => (size, size)

/-- `int(h * (width / w))` of lines 115–116, with exact arithmetic
(`int` truncates; the operands are non-negative, so this is the floor). -/
def popupNewHeight (w h width : Nat) : Int :=
  Int.floor ((h : ℚ) * ((width : ℚ) / (w : ℚ)))

/-- `heic_to_base64_popup` (lines 111–120), modelled down to the dimensions
of the produced preview: the source is opened with the mime type hardcoded
to `'image/heic'` and resized to `(width, int(h * width / w))`. -/
def heic_to_base64_popup {β : Type} (env : Env β) (fileBytes : β) (width : Nat) :
    Option (Nat × Nat) :=
  (pil_open_safe env fileBytes "image/heic").map fun img =>
    (width, (popupNewHeight img.width img.height width).toNat)

/-! ### Cache -/

/-- The cache dict `cached_files`, as an insertion-ordered association list
(Python dict semantics; in the ingestion loop a key is only ever inserted
when absent). -/
abbrev Cache := List (String × Row)

/-- `f['id'] in cached_files` / `cached_files[f['id']]`. -/
def cacheLookup (c : Cache) (k : String) : Option Row :=
  match c.find? (fun p => p.1 == k) with
  | some p => some p.2
  | none => none

/-- `cached_files[f['id']] = row` for a key not yet present. -/
def cacheInsert (c : Cache) (k : String) (r : Row) : Cache :=
  c ++ [(k, r)]

/-- `load_cache`'s view of the local cache file: absent
(`os.path.exists` false), present but failing to open or JSON-parse, or
present and parsing to a map. -/
inductive LocalFileState
  | absent
  | unreadable
  | readable (m : Cache)

/-- `load_cache` (lines 123–132).  `repoFetch` is the outcome of
`repo.get_contents` + decode + `json.loads`, the only part under `try`:
its failure returns `{}`.  Reading an existing local file is not guarded,
so its failure propagates. -/
def load_cache (localState : LocalFileState) (repoFetch : Except Unit Cache) :
    Except Unit Cache :=
  match localState with
  | .readable m => .ok m
  | .unreadable => .error ()
  | .absent =>
    match repoFetch with
    | .ok m => .ok m
    | .error _ => .ok []

/-! ### Ingestion loop and marker rendering loop -/

/-- Result of the ingestion loop (lines 137–155): the record list `rows`,
the final `cached_files` map (dumped to disk at lines 158–159), and the
ids passed to `get_file_bytes`, in order. -/
structure IngestOut where
  rows : List Row
  cache : Cache
  downloads : List String
deriving Repr, DecidableEq

/-- The dict literal built at lines 146–153 from the listing entry and the
extracted EXIF triple. -/
def mkRow (f : DriveFile) (g : GeoTag) : Row :=
  ⟨f.name, g.latitude, g.longitude, g.datetime, f.id, f.mimeType⟩

/-- The ingestion loop (lines 137–155).  A cache hit appends the cached
row and skips the file; otherwise the bytes are fetched (**no `try`**: a
failing download aborts the whole run), EXIF is extracted, and the row is
appended to both `rows` and the cache. -/
def ingest {β : Type} (env : Env β) : List DriveFile → Cache → Except Unit IngestOut
  | [], cache => .ok ⟨[], cache, []⟩
  | f :: rest, cache =>
    match cacheLookup cache f.id with
    | some row => (ingest env rest cache).map fun o => ⟨row :: o.rows, o.cache, o.downloads⟩
    | none =>
      match env.download f.id with
      | .error e => .error e
      | .ok fileBytes =>
        let row : Row := mkRow f (extract_exif (env.parseTags fileBytes f.mimeType))
        (ingest env rest (cacheInsert cache f.id row)).map
          fun o => ⟨row :: o.rows, o.cache, f.id :: o.downloads⟩

/-- Python truthiness of a `latitude`/`longitude` cell: the empty string
`''` and the float `0.0` are falsy, any other float truthy. -/
def truthyQ : Option ℚ → Bool
  | none => false
  | some q => q != 0

/-- One marker emitted into the generated HTML (lines 183–193). -/
structure Marker where
  filename : String
  latitude : ℚ
  longitude : ℚ
  datetime : String
  icon : Nat × Nat
  popup : Nat × Nat
deriving Repr, DecidableEq

/-- The marker rendering loop (lines 177–193).  For every row with truthy
latitude and longitude the bytes are **fetched again** (`get_file_bytes`,
unguarded) and both artifacts are generated with the mime type hardcoded
to `'image/heic'`; a marker is emitted only when both artifacts are
non-`None`.  Returns the markers and the ids downloaded, in order. -/
def render {β : Type} (env : Env β) : List Row → Except Unit (List Marker × List String)
  | [] => .ok ([], [])
  | row :: rest =>
    if truthyQ row.latitude && truthyQ row.longitude then
      match env.download row.file_id with
      | .error e => .error e
      | .ok fileBytes =>
        match heic_to_base64_circle env fileBytes 50,
              heic_to_base64_popup env fileBytes 200 with
        | some ic, some pp =>
          (render env rest).map fun p =>
            (⟨row.filename, row.latitude.getD 0, row.longitude.getD 0,
              row.datetime, ic, pp⟩ :: p.1, row.file_id :: p.2)
        | _, _ => (render env rest).map fun p => (p.1, row.file_id :: p.2)
    else render env rest

/-- A whole run after `load_cache`: ingestion loop, cache dump, marker
rendering.  `downloads` collects every `get_file_bytes` call of the run
(ingestion first, then rendering). -/
structure RunOut where
  rows : List Row
  cache : Cache
  markers : List Marker
  downloads : List String
deriving Repr, DecidableEq

/-- `runPipeline env files cache0` models lines 137–193 starting from the
loaded cache `cache0`. -/
def runPipeline {β : Type} (env : Env β) (files : List DriveFile) (cache0 : Cache) :
    Except Unit RunOut :=
  match ingest env files cache0 with
  | .error e => .error e
  | .ok ing =>
    match render env ing.rows with
    | .error e => .error e
    | .ok (ms, rdls) => .ok ⟨ing.rows, ing.cache, ms, ing.downloads ++ rdls⟩

/-! ### Concrete instances for counterexamples and witnesses -/

/-- DMS `(35, 0, 0)`, each component stored as `n/1`. -/
def dms35 : Dms := ⟨⟨35, 1⟩, ⟨0, 1⟩, ⟨0, 1⟩⟩

/-- DMS `(139, 0, 0)`. -/
def dms139 : Dms := ⟨⟨139, 1⟩, ⟨0, 1⟩, ⟨0, 1⟩⟩

/-- A complete tag set: 35°N, 139°E, with a capture timestamp. -/
def tagsFull : TagSet :=
  ⟨some dms35, some "N", some dms139, some "E", some "2020:01:01 00:00:00"⟩

/-- Tag set whose `GPS GPSLongitudeRef` is missing, everything else
present. -/
def tagsNoLonRef : TagSet :=
  ⟨some dms35, some "N", some dms139, none, some "2020:01:01 00:00:00"⟩

/-- Tag set with no GPS tags at all but a capture timestamp. -/
def tagsNoGps : TagSet := ⟨none, none, none, none, some "2020:01:01 00:00:00"⟩

/-- Collaborators for a single always-downloadable file with complete tags
whose image decodes (100×300 portrait) through the pyheif path; bytes are
modelled as `Nat` tokens. -/
def envA : Env Nat :=
  { download := fun _ => .ok 0
    parseTags := fun _ _ => .ok tagsFull
    heifDecode := fun _ => .ok ⟨100, 300⟩
    pilDecode := fun _ => .error () }

/-- The single listed file used with `envA`. -/
def fileA : DriveFile := ⟨"id1", "a.heic", "image/heic"⟩

/-- The row the pipeline builds for `fileA` under `envA`. -/
def rowA : Row := ⟨"a.heic", some 35, some 139, "2020:01:01 00:00:00", "id1", "image/heic"⟩

/-- The marker the pipeline renders for `rowA` under `envA`. -/
def markerA : Marker := ⟨"a.heic", 35, 139, "2020:01:01 00:00:00", (50, 50), (200, 600)⟩

/-- Collaborators where downloading the file with id `"bad"` fails and
every other download succeeds. -/
def envBadFirst : Env Nat :=
  { download := fun id => if id = "bad" then .error () else .ok 0
    parseTags := fun _ _ => .ok tagsFull
    heifDecode := fun _ => .ok ⟨100, 300⟩
    pilDecode := fun _ => .error () }

/-- Collaborators for a file carrying no GPS tags at all. -/
def envNoGps : Env Nat :=
  { download := fun _ => .ok 0
    parseTags := fun _ _ => .ok tagsNoGps
    heifDecode := fun _ => .ok ⟨100, 300⟩
    pilDecode := fun _ => .error () }

/-- The row built for `fileA` under `envNoGps`: no coordinate, timestamp
kept. -/
def rowNoGps : Row := ⟨"a.heic", none, none, "2020:01:01 00:00:00", "id1", "image/heic"⟩

/-- Collaborators whose decoded image is 300×100 (landscape). -/
def envWide : Env Nat :=
  { download := fun _ => .ok 0
    parseTags := fun _ _ => .ok tagsFull
    heifDecode := fun _ => .ok ⟨300, 100⟩
    pilDecode := fun _ => .error () }

/-- Collaborators for a JPEG file whose bytes the pyheif path cannot
decode, while the generic PIL path could — demonstrating that the render
loop never consults the latter. -/
def envNoHeifDecode : Env Nat :=
  { download := fun _ => .ok 0
    parseTags := fun _ _ => .ok tagsFull
    heifDecode := fun _ => .error ()
    pilDecode := fun _ => .ok ⟨100, 100⟩ }

/-- The equator row: a valid coordinate with latitude exactly 0. -/
def rowEquator : Row := ⟨"eq.heic", some 0, some 139, "", "id0", "image/heic"⟩

/-! ### Helper lemmas -/

theorem except_map_ok {ε α γ : Type} {f : α → γ} {x : Except ε α} {b : γ}
    (h : x.map f = .ok b) : ∃ a, x = .ok a ∧ f a = b := by
  cases x with
  | error e => simp [Except.map] at h
  | ok a => exact ⟨a, rfl, by simpa [Except.map] using h⟩

theorem cacheLookup_nil (k : String) : cacheLookup [] k = none := rfl

theorem cacheLookup_cons (p : String × Row) (c : Cache) (k : String) :
    cacheLookup (p :: c) k = if p.1 = k then some p.2 else cacheLookup c k := by
  by_cases h : p.1 = k
  · simp [cacheLookup, List.find?, h]
  · have hb : (p.1 == k) = false := beq_eq_false_iff_ne.mpr h
    simp [cacheLookup, List.find?, hb, h]

/-- Bindings already present survive an insertion (the new pair is appended,
and `find?` returns the first match). -/
theorem cacheLookup_insert_of_some {c : Cache} {k' : String} {r' : Row}
    (k : String) (r : Row) (h : cacheLookup c k' = some r') :
    cacheLookup (cacheInsert c k r) k' = some r' := by
  induction c with
  | nil => simp [cacheLookup, List.find?] at h
  | cons p c ih =>
    rw [cacheLookup_cons] at h
    show cacheLookup (p :: (c ++ [(k, r)])) k' = some r'
    rw [cacheLookup_cons]
    by_cases hp : p.1 = k' <;> simp_all [cacheInsert]

/-- Inserting a fresh key makes it found, bound to the inserted row. -/
theorem cacheLookup_insert_self {c : Cache} {k : String}
    (r : Row) (h : cacheLookup c k = none) :
    cacheLookup (cacheInsert c k r) k = some r := by
  induction c with
  | nil => simp [cacheLookup, cacheInsert, List.find?]
  | cons p c ih =>
    rw [cacheLookup_cons] at h
    show cacheLookup (p :: (c ++ [(k, r)])) k = some r
    rw [cacheLookup_cons]
    by_cases hp : p.1 = k <;> simp_all [cacheInsert]

theorem truthyQ_eq_true_iff (x : Option ℚ) :
    truthyQ x = true ↔ ∃ q, x = some q ∧ q ≠ 0 := by
  cases x with
  | none => simp [truthyQ]
  | some q => simp [truthyQ, bne_iff_ne]

theorem truthyQ_none : truthyQ none = false := rfl

theorem truthyQ_some_zero : truthyQ (some 0) = false := by simp [truthyQ]

/-- The ingestion loop only adds cache entries: every binding of the
starting cache is still found, unchanged, in the final cache. -/
theorem ingest_lookup_mono {β : Type} (env : Env β) :
    ∀ (files : List DriveFile) (c : Cache) (o : IngestOut) (k : String) (r : Row),
      ingest env files c = .ok o → cacheLookup c k = some r →
      cacheLookup o.cache k = some r := by
  intro files
  induction files with
  | nil =>
    intro c o k r h hk
    simp only [ingest, Except.ok.injEq] at h
    subst h
    exact hk
  | cons f rest ih =>
    intro c o k r h hk
    simp only [ingest] at h
    cases hc : cacheLookup c f.id with
    | some row =>
      rw [hc] at h
      obtain ⟨o', ho', rfl⟩ := except_map_ok h
      exact ih c o' k r ho' hk
    | none =>
      rw [hc] at h
      cases hd : env.download f.id with
      | error e => rw [hd] at h; exact absurd h (by simp)
      | ok fileBytes =>
        rw [hd] at h
        obtain ⟨o', ho', rfl⟩ := except_map_ok h
        exact ih _ o' k r ho' (cacheLookup_insert_of_some f.id _ hk)

/-- Every listed file's id is a key of the final cache of a completed
ingestion run (cache hits were already there; processed files are added). -/
theorem ingest_listed_cached {β : Type} (env : Env β) :
    ∀ (files : List DriveFile) (c : Cache) (o : IngestOut),
      ingest env files c = .ok o →
      ∀ f ∈ files, (cacheLookup o.cache f.id).isSome = true := by
  intro files
  induction files with
  | nil => intro c o h f hf; exact absurd hf (List.not_mem_nil f)
  | cons g rest ih =>
    intro c o h f hf
    simp only [ingest] at h
    cases hc : cacheLookup c g.id with
    | some row =>
      rw [hc] at h
      obtain ⟨o', ho', rfl⟩ := except_map_ok h
      rcases List.mem_cons.mp hf with rfl | hf'
      · rw [ingest_lookup_mono env rest c o' f.id row ho' hc]; rfl
      · exact ih c o' ho' f hf'
    | none =>
      rw [hc] at h
      cases hd : env.download g.id with
      | error e => rw [hd] at h; exact absurd h (by simp)
      | ok fileBytes =>
        rw [hd] at h
        obtain ⟨o', ho', rfl⟩ := except_map_ok h
        rcases List.mem_cons.mp hf with rfl | hf'
        · rw [ingest_lookup_mono env rest _ o' f.id _ ho'
            (cacheLookup_insert_self _ hc)]
          rfl
        · exact ih _ o' ho' f hf'

/-- Replaying the ingestion loop on its own final cache: every file is a
cache hit, so no downloads happen, the cache is unchanged, and the same
record list is produced. -/
theorem ingest_replay {β : Type} (env : Env β) :
    ∀ (files : List DriveFile) (c : Cache) (o : IngestOut),
      ingest env files c = .ok o →
      ingest env files o.cache = .ok ⟨o.rows, o.cache, []⟩ := by
  intro files
  induction files with
  | nil =>
    intro c o h
    simp only [ingest, Except.ok.injEq] at h
    subst h
    rfl
  | cons f rest ih =>
    intro c o h
    simp only [ingest] at h
    cases hc : cacheLookup c f.id with
    | some row =>
      rw [hc] at h
      obtain ⟨o', ho', rfl⟩ := except_map_ok h
      have hhit : cacheLookup o'.cache f.id = some row :=
        ingest_lookup_mono env rest c o' f.id row ho' hc
      simp only [ingest, hhit, ih c o' ho', Except.map]
    | none =>
      rw [hc] at h
      cases hd : env.download f.id with
      | error e => rw [hd] at h; exact absurd h (by simp)
      | ok fileBytes =>
        rw [hd] at h
        obtain ⟨o', ho', rfl⟩ := except_map_ok h
        have hhit : cacheLookup o'.cache f.id = some _ :=
          ingest_lookup_mono env rest _ o' f.id _ ho' (cacheLookup_insert_self _ hc)
        simp only [ingest, hhit, ih _ o' ho', Except.map]

/-- The ids downloaded by the marker rendering loop are exactly the ids of
the rows with truthy latitude and longitude, in order. -/
theorem render_downloads_eq {β : Type} (env : Env β) :
    ∀ (rows : List Row) (ms : List Marker) (dls : List String),
      render env rows = .ok (ms, dls) →
      dls = (rows.filter fun r => truthyQ r.latitude && truthyQ r.longitude).map
        Row.file_id := by
  intro rows
  induction rows with
  | nil =>
    intro ms dls h
    simp only [render, Except.ok.injEq, Prod.mk.injEq] at h
    simp [← h.2]
  | cons row rest ih =>
    intro ms dls h
    simp only [render] at h
    by_cases ht : (truthyQ row.latitude && truthyQ row.longitude) = true
    · rw [if_pos ht] at h
      cases hd : env.download row.file_id with
      | error e => rw [hd] at h; exact absurd h (by simp)
      | ok fileBytes =>
        simp only [hd] at h
        have hfc : List.filter (fun r => truthyQ r.latitude && truthyQ r.longitude)
            (row :: rest) =
            row :: List.filter (fun r => truthyQ r.latitude && truthyQ r.longitude) rest := by
          simp [List.filter_cons, ht]
        rw [hfc, List.map_cons]
        cases hic : heic_to_base64_circle env fileBytes 50 with
        | none =>
          simp only [hic] at h
          obtain ⟨⟨ms', dls'⟩, hr, hb⟩ := except_map_ok h
          obtain ⟨-, rfl⟩ := Prod.mk.injEq .. ▸ hb
          exact congrArg _ (ih ms' dls' hr)
        | some ic =>
          simp only [hic] at h
          cases hpp : heic_to_base64_popup env fileBytes 200 with
          | none =>
            simp only [hpp] at h
            obtain ⟨⟨ms', dls'⟩, hr, hb⟩ := except_map_ok h
            obtain ⟨-, rfl⟩ := Prod.mk.injEq .. ▸ hb
            exact congrArg _ (ih ms' dls' hr)
          | some pp =>
            simp only [hpp] at h
            obtain ⟨⟨ms', dls'⟩, hr, hb⟩ := except_map_ok h
            obtain ⟨-, rfl⟩ := Prod.mk.injEq .. ▸ hb
            exact congrArg _ (ih ms' dls' hr)
    · rw [if_neg ht] at h
      have hfc : List.filter (fun r => truthyQ r.latitude && truthyQ r.longitude)
          (row :: rest) =
          List.filter (fun r => truthyQ r.latitude && truthyQ r.longitude) rest := by
        simp [List.filter_cons, ht]
      rw [hfc]
      exact ih ms dls h

/-- Every marker emitted by the rendering loop has nonzero latitude and
longitude: the loop's guard is Python truthiness, so `''`, `0.0` never
reach the marker list. -/
theorem render_marker_coords_nonzero {β : Type} (env : Env β) :
    ∀ (rows : List Row) (ms : List Marker) (dls : List String),
      render env rows = .ok (ms, dls) →
      ∀ mk ∈ ms, mk.latitude ≠ 0 ∧ mk.longitude ≠ 0 := by
  intro rows
  induction rows with
  | nil =>
    intro ms dls h mk hmk
    simp only [render, Except.ok.injEq, Prod.mk.injEq] at h
    rw [← h.1] at hmk
    exact absurd hmk (List.not_mem_nil mk)
  | cons row rest ih =>
    intro ms dls h mk hmk
    simp only [render] at h
    by_cases ht : (truthyQ row.latitude && truthyQ row.longitude) = true
    · rw [if_pos ht] at h
      obtain ⟨hlat, hlon⟩ := Bool.and_eq_true_iff.mp ht
      obtain ⟨qla, hqla, hqla0⟩ := (truthyQ_eq_true_iff _).mp hlat
      obtain ⟨qlo, hqlo, hqlo0⟩ := (truthyQ_eq_true_iff _).mp hlon
      cases hd : env.download row.file_id with
      | error e => rw [hd] at h; exact absurd h (by simp)
      | ok fileBytes =>
        simp only [hd] at h
        cases hic : heic_to_base64_circle env fileBytes 50 with
        | none =>
          simp only [hic] at h
          obtain ⟨⟨ms', dls'⟩, hr, hb⟩ := except_map_ok h
          obtain ⟨rfl, -⟩ := Prod.mk.injEq .. ▸ hb
          exact ih ms' dls' hr mk hmk
        | some ic =>
          simp only [hic] at h
          cases hpp : heic_to_base64_popup env fileBytes 200 with
          | none =>
            simp only [hpp] at h
            obtain ⟨⟨ms', dls'⟩, hr, hb⟩ := except_map_ok h
            obtain ⟨rfl, -⟩ := Prod.mk.injEq .. ▸ hb
            exact ih ms' dls' hr mk hmk
          | some pp =>
            simp only [hpp] at h
            obtain ⟨⟨ms', dls'⟩, hr, hb⟩ := except_map_ok h
            obtain ⟨hms, -⟩ := Prod.mk.injEq .. ▸ hb
            rw [← hms] at hmk
            rcases List.mem_cons.mp hmk with rfl | hmk'
            · constructor
              · show row.latitude.getD 0 ≠ 0
                rw [hqla]; exact hqla0
              · show row.longitude.getD 0 ≠ 0
                rw [hqlo]; exact hqlo0
            · exact ih ms' dls' hr mk hmk'
    · rw [if_neg ht] at h
      exact ih ms dls h mk hmk

/-! ### The claims -/

/-- C2: for every DMS triple of rationals (denominators nonzero, so the
conversion does not raise) and reference string, `dms_to_dd` returns
`deg + min/60 + sec/3600`, negated exactly when the reference is not one
of `"N"`, `"E"`; in particular DMS `(35,0,0)` yields `+35` with ref `"N"`,
`-35` with ref `"S"`, and `-35` with the invalid ref `"X"`. -/
theorem C2_dms_to_dd_sign :
    (∀ (dms : Dms) (r : String),
        dms.deg.den ≠ 0 → dms.minute.den ≠ 0 → dms.sec.den ≠ 0 →
        dms_to_dd dms r =
          .ok (if r ∈ (["N", "E"] : List String)
               then (dms.deg.num : ℚ) / (dms.deg.den : ℚ)
                    + ((dms.minute.num : ℚ) / (dms.minute.den : ℚ)) / 60
                    + ((dms.sec.num : ℚ) / (dms.sec.den : ℚ)) / 3600
               else -((dms.deg.num : ℚ) / (dms.deg.den : ℚ)
                    + ((dms.minute.num : ℚ) / (dms.minute.den : ℚ)) / 60
                    + ((dms.sec.num : ℚ) / (dms.sec.den : ℚ)) / 3600))) ∧
    dms_to_dd dms35 "N" = .ok 35 ∧
    dms_to_dd dms35 "S" = .ok (-35) ∧
    dms_to_dd dms35 "X" = .ok (-35) := by
  refine ⟨?_, by with_unfolding_all rfl, by with_unfolding_all rfl,
    by with_unfolding_all rfl⟩
  intro dms r h1 h2 h3
  simp only [dms_to_dd, ratVal, if_neg h1, if_neg h2, if_neg h3]
  by_cases hr : r ∈ (["N", "E"] : List String) <;>
    simp [hr, Bind.bind, Except.bind, Pure.pure, Except.pure]

/-- Witness for C2 at DMS `(1/2, 3/4, 5/6)` with ref `"W"`. -/
theorem C2_witness :
    dms_to_dd ⟨⟨1, 2⟩, ⟨3, 4⟩, ⟨5, 6⟩⟩ "W" =
      .ok (-((1 : ℚ) / 2 + ((3 : ℚ) / 4) / 60 + ((5 : ℚ) / 6) / 3600)) := by
  have h := C2_dms_to_dd_sign.1 ⟨⟨1, 2⟩, ⟨3, 4⟩, ⟨5, 6⟩⟩ "W"
    (by decide) (by decide) (by decide)
  simpa using h

/-- C1 (counterexample): one file with coordinates, processed and cached by
a first run.  A second run on the unchanged listing, starting from that
cache, still performs a download: the marker rendering loop re-fetches the
bytes of every coordinate-bearing record (its `get_file_bytes` call is not
gated by the cache), so the download list of the second run is `["id1"]`,
not `[]`, even though `"id1"` is a cache key. -/
theorem C1_counterexample :
    runPipeline envA [fileA] [] =
      .ok ⟨[rowA], [("id1", rowA)], [markerA], ["id1", "id1"]⟩ ∧
    runPipeline envA [fileA] [("id1", rowA)] =
      .ok ⟨[rowA], [("id1", rowA)], [markerA], ["id1"]⟩ ∧
    (["id1"] : List String) ≠ [] := by
  refine ⟨by with_unfolding_all rfl, by with_unfolding_all rfl, by decide⟩

/-- C1 (amended): replaying the ingestion loop on the cache produced by a
previous run performs zero ingestion downloads and produces the identical
record list with the cache unchanged; but the marker rendering loop
re-fetches the bytes of every record with truthy coordinates on every run,
so the run as a whole downloads once per rendered marker row. -/
theorem C1_amended {β : Type} (env : Env β) (files : List DriveFile)
    (o : IngestOut) (h : ingest env files [] = .ok o) :
    ingest env files o.cache = .ok ⟨o.rows, o.cache, []⟩ ∧
    ∀ (ms : List Marker) (dls : List String), render env o.rows = .ok (ms, dls) →
      dls = (o.rows.filter fun r => truthyQ r.latitude && truthyQ r.longitude).map
        Row.file_id :=
  ⟨ingest_replay env files [] o h,
   fun ms dls hr => render_downloads_eq env o.rows ms dls hr⟩

/-- Witness for C1 (amended) on the concrete one-file environment. -/
theorem C1_amended_witness :
    ingest envA [fileA] (IngestOut.mk [rowA] [("id1", rowA)] ["id1"]).cache =
      .ok ⟨[rowA], [("id1", rowA)], []⟩ := by
  have h := C1_amended envA [fileA] ⟨[rowA], [("id1", rowA)], ["id1"]⟩
    (by with_unfolding_all rfl)
  exact h.1

/-- C3 (counterexample): a tag set with `GPSLatitude`, `GPSLatitudeRef` and
`GPSLongitude` present but `GPSLongitudeRef` missing yields a **partial**
GeoTag — latitude assigned, longitude absent — because the Python
`KeyError` fires only after `lat` has been written. -/
theorem C3_counterexample :
    (extract_exif (.ok tagsNoLonRef)).latitude = some 35 ∧
    (extract_exif (.ok tagsNoLonRef)).longitude = none := by
  constructor <;> with_unfolding_all rfl

/-- C3 (amended): `extract_exif` is total (never raises to the caller) and
a reader/decoder failure yields the all-absent GeoTag; a tag set missing
`GPSLatitudeRef` yields both coordinates absent; but when only
`GPSLongitudeRef` is missing (with both DMS tags present) the result can
be partial: longitude is absent while latitude may remain assigned. -/
theorem C3_amended :
    extract_exif (.error ()) = ⟨none, none, ""⟩ ∧
    (∀ tags : TagSet, tags.gpsLatitudeRef = none →
        (extract_exif (.ok tags)).latitude = none ∧
        (extract_exif (.ok tags)).longitude = none) ∧
    (∀ tags : TagSet, tags.gpsLongitudeRef = none →
        (extract_exif (.ok tags)).longitude = none) := by
  refine ⟨rfl, ?_, ?_⟩
  · intro tags h
    obtain ⟨glat, glatR, glon, glonR, dt⟩ := tags
    cases glat <;> cases glon <;> simp_all [extract_exif]
  · intro tags h
    obtain ⟨glat, glatR, glon, glonR, dt⟩ := tags
    cases glat with
    | none => simp [extract_exif]
    | some latDms =>
      cases glon with
      | none => simp [extract_exif]
      | some lonDms =>
        cases glatR with
        | none => simp [extract_exif]
        | some latRef =>
          cases h
          cases hdd : dms_to_dd latDms latRef <;> simp [extract_exif, hdd]

/-- Witness for C3 (amended): missing `GPSLatitudeRef` yields an absent
latitude. -/
theorem C3_amended_witness :
    (extract_exif (.ok ⟨some dms35, none, some dms139, none,
      some "2020:01:01 00:00:00"⟩)).latitude = none :=
  (C3_amended.2.1 ⟨some dms35, none, some dms139, none,
    some "2020:01:01 00:00:00"⟩ rfl).1

/-- C4 (counterexample): with two files listed and the first one's download
failing, the ingestion loop propagates the error and the whole run aborts —
the failing file is not skipped, the second file is never processed, and
the cache flush is never reached — contradicting "caught at the file
boundary … processing continues for the remaining files". -/
theorem C4_counterexample :
    ingest envBadFirst
      [⟨"bad", "b.jpg", "image/jpeg"⟩, ⟨"good", "g.jpg", "image/jpeg"⟩] [] =
      .error () ∧
    runPipeline envBadFirst
      [⟨"bad", "b.jpg", "image/jpeg"⟩, ⟨"good", "g.jpg", "image/jpeg"⟩] [] =
      .error () := by
  constructor <;> with_unfolding_all rfl

/-- C4 (amended): metadata parse failures are contained — for an uncached
file whose download succeeds, the loop proceeds identically whatever
`parseTags` returns, never propagating its error; but a download failure
is uncaught and aborts the entire run (so the failed file is indeed absent
from the cache — as is everything else, since the flush is never
reached). -/
theorem C4_amended {β : Type} (env : Env β) (f : DriveFile)
    (rest : List DriveFile) (c : Cache) (hmiss : cacheLookup c f.id = none) :
    (env.download f.id = .error () → ingest env (f :: rest) c = .error ()) ∧
    (∀ fileBytes : β, env.download f.id = .ok fileBytes →
        ingest env (f :: rest) c =
          (ingest env rest
            (cacheInsert c f.id
              (mkRow f (extract_exif (env.parseTags fileBytes f.mimeType))))).map
            fun o =>
              ⟨mkRow f (extract_exif (env.parseTags fileBytes f.mimeType)) :: o.rows,
               o.cache, f.id :: o.downloads⟩) := by
  constructor
  · intro hd
    simp [ingest, hmiss, hd]
  · intro fileBytes hd
    simp [ingest, hmiss, hd]

/-- Witness for C4 (amended): the failing download aborts the one-file
run. -/
theorem C4_amended_witness :
    ingest envBadFirst [⟨"bad", "b.jpg", "image/jpeg"⟩] [] = .error () := by
  exact (C4_amended envBadFirst ⟨"bad", "b.jpg", "image/jpeg"⟩ [] [] rfl).1
    (by with_unfolding_all rfl)

/-- C5: after a completed ingestion run every listed file's id is a key of
the final (flushed) cache — in particular files whose metadata yielded no
coordinate; and a row with an absent latitude or longitude is skipped
entirely by the marker rendering loop (no marker, no byte fetch). -/
theorem C5_cached_but_no_marker {β : Type} (env : Env β)
    (files : List DriveFile) (c : Cache) (o : IngestOut)
    (h : ingest env files c = .ok o) :
    (∀ f ∈ files, (cacheLookup o.cache f.id).isSome = true) ∧
    (∀ (row : Row) (rest : List Row),
        row.latitude = none ∨ row.longitude = none →
        render env (row :: rest) = render env rest) := by
  refine ⟨ingest_listed_cached env files c o h, ?_⟩
  intro row rest hnone
  have hfalse : (truthyQ row.latitude && truthyQ row.longitude) = false := by
    rcases hnone with h' | h' <;> simp [h', truthyQ]
  simp [render, hfalse]

/-- Witness for C5: the no-coordinate file is cached, and its row is
skipped by the renderer. -/
theorem C5_witness :
    (cacheLookup (IngestOut.mk [rowNoGps] [("id1", rowNoGps)] ["id1"]).cache
      "id1").isSome = true ∧
    render envNoGps [rowNoGps] = render envNoGps [] := by
  have h := C5_cached_but_no_marker envNoGps [fileA] []
    ⟨[rowNoGps], [("id1", rowNoGps)], ["id1"]⟩ (by with_unfolding_all rfl)
  exact ⟨h.1 fileA (List.mem_singleton.mpr rfl), h.2 rowNoGps [] (Or.inl rfl)⟩

/-- C6 (counterexample): the 100×300 portrait source under `envA` gets a
200×600 preview — the longer output dimension is 600, not the configured
target 200; the code fixes the *width* to the target, not the longer
side. -/
theorem C6_counterexample :
    heic_to_base64_popup envA 0 200 = some (200, 600) ∧
    max 200 600 ≠ 200 := by
  exact ⟨by with_unfolding_all rfl, by decide⟩

/-- C6 (amended): preview generation fixes the output *width* to the
target (deterministically, for every decodable source) and scales the
height by the same factor, preserving aspect ratio; the longer output
dimension equals the target only when the source is at least as wide as it
is tall. -/
theorem C6_amended {β : Type} (env : Env β) (fileBytes : β) (w h : Nat)
    (hdec : env.heifDecode fileBytes = .ok ⟨w, h⟩) (hw : 1 ≤ w) :
    heic_to_base64_popup env fileBytes 200 =
      some (200, (popupNewHeight w h 200).toNat) ∧
    (h ≤ w →
      max 200 (popupNewHeight w h 200).toNat = 200) := by
  have hheic : strContainsSub ("image/heic".toLower) "heic" = true := by
    with_unfolding_all rfl
  constructor
  · simp [heic_to_base64_popup, pil_open_safe, hheic, hdec]
  · intro hhw
    have hle : (popupNewHeight w h 200 : Int) ≤ 200 := by
      have hwpos : (0 : ℚ) < (w : ℚ) := by exact_mod_cast hw
      have hq : (h : ℚ) * ((200 : ℚ) / (w : ℚ)) ≤ 200 := by
        rw [mul_div_assoc']
        rw [div_le_iff₀ hwpos]
        have : (h : ℚ) ≤ (w : ℚ) := by exact_mod_cast hhw
        nlinarith
      calc (popupNewHeight w h 200 : Int)
          ≤ Int.floor ((200 : ℚ)) := by
            unfold popupNewHeight
            exact Int.floor_le_floor hq
        _ = 200 := by norm_num
    have : (popupNewHeight w h 200).toNat ≤ 200 := by
      omega
    omega

/-- Witness for C6 (amended) on a 300×100 landscape source: the preview is
200×66 and its longer dimension is the target. -/
theorem C6_amended_witness :
    heic_to_base64_popup envWide 0 200 =
      some (200, (popupNewHeight 300 100 200).toNat) ∧
    max 200 (popupNewHeight 300 100 200).toNat = 200 := by
  have h := C6_amended envWide 0 300 100 (by with_unfolding_all rfl) (by decide)
  exact ⟨h.1, h.2 (by decide)⟩

/-- C7 (counterexample): when the local cache file exists but reading or
JSON-parsing it fails, `load_cache` raises — the `try` only protects the
repository fetch — instead of returning the empty map. -/
theorem C7_counterexample :
    load_cache .unreadable (.error ()) = .error () ∧
    (Except.error () : Except Unit Cache) ≠ .ok [] := by
  exact ⟨rfl, by simp⟩

/-- C7 (amended): `load_cache` returns the empty map when the local cache
file is absent and the repository fetch fails (absent or unreadable), and
returns the parsed map when either source is readable; but an existing
local cache file whose read or parse fails raises out of `load_cache`. -/
theorem C7_amended :
    load_cache .absent (.error ()) = .ok [] ∧
    (∀ m : Cache, load_cache .absent (.ok m) = .ok m) ∧
    (∀ m : Cache, ∀ repoFetch : Except Unit Cache,
        load_cache (.readable m) repoFetch = .ok m) ∧
    (∀ repoFetch : Except Unit Cache,
        load_cache .unreadable repoFetch = .error ()) := by
  exact ⟨rfl, fun _ => rfl, fun _ _ => rfl, fun _ => rfl⟩

/-- C8: the rendering loop's artifact generation hardcodes the mime type
to `'image/heic'`: `pil_open_safe` then always takes the pyheif path
(whatever the bytes are), the loop's behaviour is independent of each
row's declared `mime_type`, and a file the pyheif path cannot decode gets
`None` for both artifacts and is silently dropped from the marker list
(its bytes having been fetched anyway). -/
theorem C8_hardcoded_heic_path {β : Type} (env : Env β) :
    (∀ fileBytes : β,
        pil_open_safe env fileBytes "image/heic" =
          match env.heifDecode fileBytes with
          | .ok img => some img
          | .error _ => none) ∧
    (∀ (row : Row) (rest : List Row) (m : String),
        render env ({row with mime_type := m} :: rest) =
          render env (row :: rest)) ∧
    (∀ (row : Row) (rest : List Row) (fileBytes : β),
        (truthyQ row.latitude && truthyQ row.longitude) = true →
        env.download row.file_id = .ok fileBytes →
        env.heifDecode fileBytes = .error () →
        render env (row :: rest) =
          (render env rest).map fun p => (p.1, row.file_id :: p.2)) := by
  have hheic : strContainsSub ("image/heic".toLower) "heic" = true := by
    with_unfolding_all rfl
  refine ⟨?_, ?_, ?_⟩
  · intro fileBytes
    simp [pil_open_safe, hheic]
  · intro row rest m
    obtain ⟨fn, la, lo, dt, fid, mt⟩ := row
    simp [render]
  · intro row rest fileBytes ht hd hfail
    have hopen : pil_open_safe env fileBytes "image/heic" = none := by
      simp [pil_open_safe, hheic, hfail]
    simp [render, ht, hd, heic_to_base64_circle, heic_to_base64_popup, hopen]

/-- Witness for C8: under `envNoHeifDecode` the JPEG row is downloaded
but dropped — no marker, even though the generic PIL decoder would have
succeeded. -/
theorem C8_witness :
    render envNoHeifDecode [rowA] = .ok ([], ["id1"]) := by
  have h := (C8_hardcoded_heic_path envNoHeifDecode).2.2 rowA [] 0
    (by with_unfolding_all rfl) (by with_unfolding_all rfl)
    (by with_unfolding_all rfl)
  rw [h]
  with_unfolding_all rfl

/-- C9: markers are emitted only from rows whose latitude and longitude
are both truthy — every emitted marker has nonzero coordinates — and a row
whose latitude or longitude is exactly `0.0` is excluded from the marker
list identically to a row with no coordinate at all. -/
theorem C9_zero_coordinate_excluded {β : Type} (env : Env β) :
    (∀ (rows : List Row) (ms : List Marker) (dls : List String),
        render env rows = .ok (ms, dls) →
        ∀ mk ∈ ms, mk.latitude ≠ 0 ∧ mk.longitude ≠ 0) ∧
    (∀ (row : Row) (rest : List Row),
        row.latitude = some 0 ∨ row.longitude = some 0 →
        render env (row :: rest) = render env rest ∧
        render env ({row with latitude := none, longitude := none} :: rest) =
          render env (row :: rest)) := by
  refine ⟨render_marker_coords_nonzero env, ?_⟩
  intro row rest hzero
  have hfalse : (truthyQ row.latitude && truthyQ row.longitude) = false := by
    rcases hzero with h' | h' <;> simp [h', truthyQ]
  have h1 : render env (row :: rest) = render env rest := by
    simp [render, hfalse]
  have h2 : render env ({row with latitude := none, longitude := none} :: rest) =
      render env rest := by
    simp [render, truthyQ]
  exact ⟨h1, h2.trans h1.symm⟩

/-- Witness for C9: the equator row is dropped exactly like a
no-coordinate row. -/
theorem C9_witness :
    render envA [rowEquator] = render envA [] ∧
    render envA [{rowEquator with latitude := none, longitude := none}] =
      render envA [rowEquator] := by
  exact (C9_zero_coordinate_excluded envA).2 rowEquator [] (Or.inl rfl)

/-- C10: when the GPS block raises partway through — here, both DMS tags
present but a reference tag missing — the returned capture timestamp is
empty even if `EXIF DateTimeOriginal` is present, because the timestamp is
read after the GPS block inside the same `try`. -/
theorem C10_timestamp_lost_on_gps_error (tags : TagSet)
    (hlat : tags.gpsLatitude.isSome = true)
    (hlon : tags.gpsLongitude.isSome = true)
    (hmiss : tags.gpsLatitudeRef = none ∨ tags.gpsLongitudeRef = none) :
    (extract_exif (.ok tags)).datetime = "" := by
  obtain ⟨glat, glatR, glon, glonR, dt⟩ := tags
  obtain ⟨latDms, rfl⟩ := Option.isSome_iff_exists.mp hlat
  obtain ⟨lonDms, rfl⟩ := Option.isSome_iff_exists.mp hlon
  rcases hmiss with h | h
  · cases h
    simp [extract_exif]
  · cases h
    cases glatR with
    | none => simp [extract_exif]
    | some latRef =>
      cases hdd : dms_to_dd latDms latRef <;> simp [extract_exif, hdd]

/-- Witness for C10: the tag set with a present `DateTimeOriginal` but a
missing longitude reference loses its timestamp. -/
theorem C10_witness : (extract_exif (.ok tagsNoLonRef)).datetime = "" :=
  C10_timestamp_lost_on_gps_error tagsNoLonRef (by with_unfolding_all rfl)
    (by with_unfolding_all rfl) (Or.inr rfl)

end Photomap
